import Mathlib

/- Shallow embedding of src/src/utils/dcf.ts (ThirteenFrames/dcf-ui).

JS numbers are modelled as rationals up to the point where Math.pow with a
possibly fractional exponent enters (the discounting step and the terminal
discount factor, whose exponents are i + 0.5 / years - 0.5 under the
mid-year convention and the raw rational years otherwise); from that point
values live in the reals via Real.rpow.  The cast from the rationals into
the reals is exact, so nothing is lost.  JS NaN and Infinity are not
representable here; the one place where undefined can arise in the source
(an array lookup at a fractional or out-of-range index) is modelled by
jsIndex returning 0, noted at its definition. -/

namespace DcfUi

/- Data model, from src/src/types/dcf.d.ts. -/

structure DCFInputs where
  revenueCagr : ℚ
  ebitMargin : ℚ
  taxRate : ℚ
  capexPercent : ℚ
  nwcPercent : ℚ
  terminalGrowth : ℚ
  discountRate : ℚ
deriving DecidableEq

structure DCFResults where
  intrinsicValue : ℝ
  enterpriseValue : ℝ
  impliedMarketCap : ℝ
  marginOfSafety : ℝ
  projectedFCFs : List ℚ

structure SensitivityData where
  discountRates : List ℚ
  terminalGrowthRates : List ℚ
  values : List (List ℤ)

/- Options record, from src/src/utils/dcf.ts (DCFCalcOptions).  Every field
is optional in the source; a missing field is none. -/

structure DCFCalcOptions where
  baseRevenue : Option ℚ := none
  sharesOutstanding : Option ℚ := none
  marketPrice : Option ℚ := none
  marketCap : Option ℚ := none
  fcfLatest : Option ℚ := none
  growthEstimate5Y : Option ℚ := none
  periodYears : Option ℚ := none
  terminalRate : Option ℚ := none
  netDebt : Option ℚ := none
  daPercent : Option ℚ := none
  useMidYear : Option Bool := none
  wacc : Option ℚ := none
deriving DecidableEq

/- Module-level default constants of dcf.ts. -/

def DEFAULT_BASE_REVENUE : ℚ := 1000000000

def DEFAULT_SHARES_OUTSTANDING : ℚ := 100000000

def DEFAULT_MARKET_PRICE : ℚ := 25

def sampleInputs : DCFInputs :=
  { revenueCagr := 15, ebitMargin := 25, taxRate := 21, capexPercent := 3,
    nwcPercent := 2, terminalGrowth := 3, discountRate := 10 }

/- Input resolution, lines 33-47 of dcf.ts.

years: the source reads `options.periodYears && options.periodYears > 0 ?
options.periodYears : 5`; a present value p is used exactly when it is
truthy (p is not 0) and p > 0, which collapses to 0 < p. -/

def resolveYears (o : DCFCalcOptions) : ℚ :=
  match o.periodYears with
  | some p => if 0 < p then p else 5
  | none => 5

/- Number of loop iterations of `for (let year = 1; year <= years; year++)`:
the number of integers in [1, years], i.e. the floor of years clamped at 0. -/

def numYears (o : DCFCalcOptions) : ℕ :=
  (⌊resolveYears o⌋).toNat

/- `typeof options.fcfLatest === 'number' && typeof options.growthEstimate5Y
=== 'number'`: both fields present. -/

def useFcfPath (o : DCFCalcOptions) : Bool :=
  o.fcfLatest.isSome && o.growthEstimate5Y.isSome

/- `options.marketPrice ?? DEFAULT_MARKET_PRICE` (?? keeps a present 0). -/

def resolveMarketPrice (o : DCFCalcOptions) : ℚ :=
  o.marketPrice.getD DEFAULT_MARKET_PRICE

/- `(options.marketCap && marketPrice > 0) ? options.marketCap / marketPrice
: DEFAULT_SHARES_OUTSTANDING`: a present marketCap is truthy exactly when it
is nonzero. -/

def sharesFromMarketCap (o : DCFCalcOptions) : ℚ :=
  match o.marketCap with
  | some mc =>
      if mc ≠ 0 ∧ 0 < resolveMarketPrice o then mc / resolveMarketPrice o
      else DEFAULT_SHARES_OUTSTANDING
  | none => DEFAULT_SHARES_OUTSTANDING

/- `(options.sharesOutstanding && options.sharesOutstanding > 0) ?
options.sharesOutstanding : (...)`: a present share count is used exactly
when it is positive (0 is falsy and also fails > 0). -/

def resolveShares (o : DCFCalcOptions) : ℚ :=
  match o.sharesOutstanding with
  | some s => if 0 < s then s else sharesFromMarketCap o
  | none => sharesFromMarketCap o

/- JS array indexing l[q].  For a nonnegative integral in-range q this is
the element; otherwise the source would read undefined and poison the
subsequent arithmetic to NaN, which has no counterpart here and is
modelled as 0. -/

def jsIndex (l : List ℚ) (q : ℚ) : ℚ :=
  if 0 ≤ q ∧ q.den = 1 then l.getD q.num.toNat 0 else 0

/- FCF-growth projection loop, lines 49-55: fcf starts at fcfLatest and is
compounded by (1 + growthRate) before each push. -/

def fcfProject (fcf g : ℚ) : ℕ → List ℚ
  | 0 => []
  | Nat.succ n => (fcf * (1 + g)) :: fcfProject (fcf * (1 + g)) g n

def fcfPathFCFs (o : DCFCalcOptions) : List ℚ :=
  fcfProject (o.fcfLatest.getD 0) ((o.growthEstimate5Y.getD 0) / 100) (numYears o)

def fcfTerminalGrowth (i : DCFInputs) (o : DCFCalcOptions) : ℚ :=
  (o.terminalRate.getD i.terminalGrowth) / 100

def dcfDiscountRate (i : DCFInputs) (o : DCFCalcOptions) : ℚ :=
  (o.wacc.getD i.discountRate) / 100

/- Line 59: `projectedFCFs[projectedFCFs.length - 1] * (1 + terminalGrowth)
/ Math.max(discountRate - terminalGrowth, 0.02)`. -/

def fcfTerminalValue (i : DCFInputs) (o : DCFCalcOptions) : ℚ :=
  jsIndex (fcfPathFCFs o) (((fcfPathFCFs o).length : ℚ) - 1) *
      (1 + fcfTerminalGrowth i o) /
    max (dcfDiscountRate i o - fcfTerminalGrowth i o) (2 / 100)

/- Revenue-driven projection loop, lines 87-100 of dcf.ts. -/

def revenueProject (i : DCFInputs) (daPercent : ℚ) (rev : ℚ) : ℕ → List ℚ
  | 0 => []
  | Nat.succ n =>
      let currentRevenue := rev * (1 + i.revenueCagr / 100)
      let ebit := currentRevenue * (i.ebitMargin / 100)
      let tax := ebit * (i.taxRate / 100)
      let nopat := ebit - tax
      let da := currentRevenue * daPercent
      let capex := currentRevenue * (i.capexPercent / 100)
      let prevRevenue := currentRevenue / (1 + i.revenueCagr / 100)
      let deltaRevenue := currentRevenue - prevRevenue
      let nwcChange := deltaRevenue * (i.nwcPercent / 100)
      let fcf := nopat + da - capex - nwcChange
      fcf :: revenueProject i daPercent currentRevenue n

def revFCFs (i : DCFInputs) (o : DCFCalcOptions) : List ℚ :=
  revenueProject i ((o.daPercent.getD 0) / 100) (o.baseRevenue.getD DEFAULT_BASE_REVENUE)
    (numYears o)

/- Line 104: `projectedFCFs[years - 1] * (1 + inputs.terminalGrowth / 100)`;
years is the raw resolved (possibly fractional) value. -/

def revTerminalFCF (i : DCFInputs) (o : DCFCalcOptions) : ℚ :=
  jsIndex (revFCFs i o) (resolveYears o - 1) * (1 + i.terminalGrowth / 100)

/- Lines 105-107: `Math.max(discountRate - inputs.terminalGrowth/100, 0.001)`
then `terminalFCF / Math.max(safeDenominator, 0.02)`. -/

def revSafeDenominator (i : DCFInputs) (o : DCFCalcOptions) : ℚ :=
  max (dcfDiscountRate i o - i.terminalGrowth / 100) (1 / 1000)

def revTerminalValue (i : DCFInputs) (o : DCFCalcOptions) : ℚ :=
  revTerminalFCF i o / max (revSafeDenominator i o) (2 / 100)

/- Present-value loop, lines 62-66 / 110-114: each projected FCF at
0-based index k is discounted by (1 + discountRate) raised to k + 0.5
(mid-year) or k + 1.  Real exponents, hence Real.rpow. -/

noncomputable def pvAux (b : ℝ) (mid : Bool) : List ℚ → ℕ → ℝ
  | [], _ => 0
  | f :: rest, k =>
      (f : ℝ) / b ^ (if mid then (k : ℝ) + 1 / 2 else (k : ℝ) + 1) +
        pvAux b mid rest (k + 1)

/- Common tail of both branches, lines 62-79 / 110-128: discounting of the
projected FCFs and the terminal value, the net-debt bridge, and the
guarded divisions for intrinsic value and margin of safety. -/

noncomputable def assembleResults (projectedFCFs : List ℚ)
    (terminalValue discountRate years netDebt shares marketPrice : ℚ)
    (useMidYear : Bool) : DCFResults :=
  let b : ℝ := 1 + (discountRate : ℝ)
  let pv : ℝ := pvAux b useMidYear projectedFCFs 0 +
    (terminalValue : ℝ) / b ^ (if useMidYear then (years : ℝ) - 1 / 2 else (years : ℝ))
  let enterpriseValue := pv
  let impliedMarketCap := enterpriseValue - (netDebt : ℝ)
  let intrinsicValue : ℝ :=
    if 0 < shares then impliedMarketCap / (shares : ℝ) else 0
  let marginOfSafety : ℝ :=
    if 0 < marketPrice then
      ((intrinsicValue - (marketPrice : ℝ)) / (marketPrice : ℝ)) * 100
    else 0
  { intrinsicValue := intrinsicValue, enterpriseValue := enterpriseValue,
    impliedMarketCap := impliedMarketCap, marginOfSafety := marginOfSafety,
    projectedFCFs := projectedFCFs }

noncomputable def calculateDCF (inputs : DCFInputs)
    (options : DCFCalcOptions := {}) : DCFResults :=
  if useFcfPath options then
    assembleResults (fcfPathFCFs options) (fcfTerminalValue inputs options)
      (dcfDiscountRate inputs options) (resolveYears options)
      (options.netDebt.getD 0) (resolveShares options)
      (resolveMarketPrice options) (options.useMidYear.getD false)
  else
    assembleResults (revFCFs inputs options) (revTerminalValue inputs options)
      (dcfDiscountRate inputs options) (resolveYears options)
      (options.netDebt.getD 0) (resolveShares options)
      (resolveMarketPrice options) (options.useMidYear.getD false)

/- JS Math.round (round half toward positive infinity). -/

def jroundQ (q : ℚ) : ℤ := ⌊q + 1 / 2⌋

noncomputable def jround (x : ℝ) : ℤ := ⌊x + 1 / 2⌋

/- generateSensitivityData, lines 131-152 of dcf.ts. -/

noncomputable def generateSensitivityData (baseInputs : DCFInputs)
    (options : DCFCalcOptions := {}) : SensitivityData :=
  let center := options.wacc.getD baseInputs.discountRate
  let discountRates : List ℚ :=
    [center - 2, center - 1, center, center + 1, center + 2].map
      (fun v => ((jroundQ v : ℤ) : ℚ))
  let terminalGrowthRates : List ℚ := [1, 3 / 2, 2, 5 / 2, 3]
  let rest : DCFCalcOptions := { options with wacc := none, terminalRate := none }
  let values : List (List ℤ) := discountRates.map (fun dr =>
    terminalGrowthRates.map (fun tg =>
      jround ((calculateDCF { baseInputs with discountRate := dr, terminalGrowth := tg }
        rest).intrinsicValue)))
  { discountRates := discountRates, terminalGrowthRates := terminalGrowthRates,
    values := values }

/- Basic structural lemmas. -/

theorem fcfProject_length (g : ℚ) : ∀ (n : ℕ) (f : ℚ), (fcfProject f g n).length = n
  | 0, _ => rfl
  | Nat.succ n, f => by simp [fcfProject, fcfProject_length g n]

theorem revenueProject_length (i : DCFInputs) (d : ℚ) :
    ∀ (n : ℕ) (r : ℚ), (revenueProject i d r n).length = n
  | 0, _ => rfl
  | Nat.succ n, r => by simp [revenueProject, revenueProject_length i d n]

theorem calculateDCF_projectedFCFs (i : DCFInputs) (o : DCFCalcOptions) :
    (calculateDCF i o).projectedFCFs =
      if useFcfPath o then fcfPathFCFs o else revFCFs i o := by
  by_cases h : useFcfPath o <;> simp [calculateDCF, assembleResults, h]

theorem calculateDCF_length (i : DCFInputs) (o : DCFCalcOptions) :
    (calculateDCF i o).projectedFCFs.length = numYears o := by
  rw [calculateDCF_projectedFCFs]
  by_cases h : useFcfPath o <;>
    simp [h, fcfPathFCFs, revFCFs, fcfProject_length, revenueProject_length]

theorem calculateDCF_intrinsic (i : DCFInputs) (o : DCFCalcOptions) :
    (calculateDCF i o).intrinsicValue =
      if 0 < resolveShares o then
        (calculateDCF i o).impliedMarketCap / ((resolveShares o : ℚ) : ℝ)
      else 0 := by
  by_cases h : useFcfPath o <;> simp [calculateDCF, assembleResults, h]

theorem calculateDCF_margin (i : DCFInputs) (o : DCFCalcOptions) :
    (calculateDCF i o).marginOfSafety =
      if 0 < resolveMarketPrice o then
        (((calculateDCF i o).intrinsicValue - ((resolveMarketPrice o : ℚ) : ℝ)) /
            ((resolveMarketPrice o : ℚ) : ℝ)) * 100
      else 0 := by
  by_cases h : useFcfPath o <;> simp [calculateDCF, assembleResults, h]

/-- C8: calculateDCF is total and guards both divisions: the intrinsic value
is impliedMarketCap / shares only when the resolved share count is positive
and 0 otherwise, and the margin of safety is (intrinsicValue - marketPrice)
/ marketPrice * 100 only when the resolved market price is positive and 0
otherwise, on either path. -/
theorem calculateDCF_division_fallbacks (i : DCFInputs) (o : DCFCalcOptions) :
    ((calculateDCF i o).intrinsicValue =
      if 0 < resolveShares o then
        (calculateDCF i o).impliedMarketCap / ((resolveShares o : ℚ) : ℝ)
      else 0) ∧
    ((calculateDCF i o).marginOfSafety =
      if 0 < resolveMarketPrice o then
        (((calculateDCF i o).intrinsicValue - ((resolveMarketPrice o : ℚ) : ℝ)) /
            ((resolveMarketPrice o : ℚ) : ℝ)) * 100
      else 0) :=
  ⟨calculateDCF_intrinsic i o, calculateDCF_margin i o⟩

/-- C9: when sharesOutstanding is absent or not positive and marketCap is
present but equal to 0, the zero marketCap is falsy in the source, so the
share count resolves to the fixed default 100,000,000 and the intrinsic
value is impliedMarketCap / 100,000,000 rather than the zero-shares
fallback of 0. -/
theorem resolveShares_zero_marketCap_default (i : DCFInputs) (o : DCFCalcOptions)
    (hs : ∀ s, o.sharesOutstanding = some s → s ≤ 0)
    (hmc : o.marketCap = some 0) :
    resolveShares o = 100000000 ∧
    (calculateDCF i o).intrinsicValue =
      (calculateDCF i o).impliedMarketCap / (100000000 : ℝ) := by
  have hfall : sharesFromMarketCap o = DEFAULT_SHARES_OUTSTANDING := by
    unfold sharesFromMarketCap
    rw [hmc]
    simp
  have hres : resolveShares o = 100000000 := by
    unfold resolveShares
    cases hso : o.sharesOutstanding with
    | none =>
        show sharesFromMarketCap o = 100000000
        rw [hfall]; rfl
    | some s =>
        have hle : ¬0 < s := not_lt.mpr (hs s hso)
        show (if 0 < s then s else sharesFromMarketCap o) = 100000000
        rw [if_neg hle, hfall]
        rfl
  refine ⟨hres, ?_⟩
  rw [calculateDCF_intrinsic, hres]
  norm_num

/-- C9 witness: with marketCap = 0 and no sharesOutstanding, the share count
resolves to the default 100,000,000. -/
theorem resolveShares_zero_marketCap_default_witness :
    resolveShares { marketCap := some 0 } = 100000000 ∧
    (calculateDCF sampleInputs { marketCap := some 0 }).intrinsicValue =
      (calculateDCF sampleInputs { marketCap := some 0 }).impliedMarketCap /
        (100000000 : ℝ) :=
  resolveShares_zero_marketCap_default sampleInputs { marketCap := some 0 }
    (fun s hs => by simp at hs) rfl

theorem numYears_empty : numYears ({} : DCFCalcOptions) = 5 := by
  unfold numYears resolveYears
  show (⌊(5 : ℚ)⌋).toNat = 5
  simp

theorem numYears_five_halves : numYears { periodYears := some (5 / 2) } = 2 := by
  unfold numYears resolveYears
  show (⌊if (0 : ℚ) < 5 / 2 then (5 / 2 : ℚ) else 5⌋).toNat = 2
  rw [if_pos (by norm_num : (0 : ℚ) < 5 / 2),
    show ⌊(5 : ℚ) / 2⌋ = 2 from by norm_num]
  rfl

theorem useFcfPath_empty : useFcfPath ({} : DCFCalcOptions) = false := rfl

theorem revFCFs_sample_empty :
    revFCFs sampleInputs {} =
      [189625000, 218068750, 501558125 / 2, 2307167375 / 8, 10612969925 / 32] := by
  unfold revFCFs
  rw [numYears_empty]
  norm_num [revenueProject, sampleInputs, DEFAULT_BASE_REVENUE]

/-- C5 counterexample: with the sample inputs and empty options, the first
projected cash flow is not 1.90125e8 as the claim states. -/
theorem firstFCF_spec_value_refuted :
    (calculateDCF sampleInputs {}).projectedFCFs.get? 0 ≠ some 190125000 := by
  rw [calculateDCF_projectedFCFs, useFcfPath_empty, if_neg (by simp), revFCFs_sample_empty]
  norm_num

/-- C5 amended: with the sample inputs and empty options, the revenue-driven
path is taken, seeded from the 1e9 base-revenue default, and the first
projected cash flow is 1.89625e8 exactly, via year-1 revenue 1.15e9, EBIT
2.875e8, tax 6.0375e7, NOPAT 2.27125e8, CapEx 3.45e7 and a change in net
working capital of (1.15e9 - 1e9) * 0.02 = 3e6 (the 1.90125e8 of the claim
is an arithmetic slip: 227125000 - 34500000 - 3000000 = 189625000). -/
theorem firstFCF_value :
    useFcfPath ({} : DCFCalcOptions) = false ∧
    (calculateDCF sampleInputs {}).projectedFCFs =
      revenueProject sampleInputs 0 DEFAULT_BASE_REVENUE 5 ∧
    (calculateDCF sampleInputs {}).projectedFCFs.get? 0 = some 189625000 ∧
    DEFAULT_BASE_REVENUE * (1 + 15 / 100) = 1150000000 ∧
    (1150000000 : ℚ) * (25 / 100) = 287500000 ∧
    (287500000 : ℚ) * (21 / 100) = 60375000 ∧
    (287500000 : ℚ) - 60375000 = 227125000 ∧
    (1150000000 : ℚ) * (3 / 100) = 34500000 ∧
    ((1150000000 : ℚ) - 1000000000) * (2 / 100) = 3000000 ∧
    (227125000 : ℚ) - 34500000 - 3000000 = 189625000 := by
  have hrev : (calculateDCF sampleInputs {}).projectedFCFs = revFCFs sampleInputs {} := by
    rw [calculateDCF_projectedFCFs, useFcfPath_empty, if_neg (by simp)]
  refine ⟨rfl, ?_, ?_, by norm_num [DEFAULT_BASE_REVENUE], by norm_num, by norm_num,
    by norm_num, by norm_num, by norm_num, by norm_num⟩
  · rw [hrev]
    unfold revFCFs
    rw [numYears_empty]
    norm_num
  · rw [hrev, revFCFs_sample_empty]
    rfl

/-- C6 counterexample: periodYears = 5/2 is present and positive, yet the
projection list has length 2, not 5/2, so the length does not equal
periodYears for every positive periodYears. -/
theorem projection_length_fractional_refuted :
    0 < (5 / 2 : ℚ) ∧
    (((calculateDCF sampleInputs { periodYears := some (5 / 2) }).projectedFCFs.length : ℚ) ≠
      5 / 2) := by
  constructor
  · norm_num
  · rw [calculateDCF_length, numYears_five_halves]
    norm_num

/-- C6 amended: the projection list of calculateDCF has length equal to the
floor of options.periodYears when that field is present and positive (hence
equal to periodYears itself whenever periodYears is a positive integer),
and length 5 when the field is absent or not positive. -/
theorem projectedFCFs_length_floor (i : DCFInputs) (o : DCFCalcOptions) :
    (∀ p, o.periodYears = some p → 0 < p →
      (calculateDCF i o).projectedFCFs.length = (⌊p⌋).toNat) ∧
    (o.periodYears = none → (calculateDCF i o).projectedFCFs.length = 5) ∧
    (∀ p, o.periodYears = some p → p ≤ 0 →
      (calculateDCF i o).projectedFCFs.length = 5) := by
  refine ⟨?_, ?_, ?_⟩
  · intro p hp hpos
    rw [calculateDCF_length]
    unfold numYears resolveYears
    rw [hp]
    simp [hpos]
  · intro hp
    rw [calculateDCF_length]
    unfold numYears resolveYears
    rw [hp]
    show (⌊(5 : ℚ)⌋).toNat = 5
    simp
  · intro p hp hle
    rw [calculateDCF_length]
    unfold numYears resolveYears
    rw [hp]
    show (⌊if (0 : ℚ) < p then p else 5⌋).toNat = 5
    rw [if_neg (not_lt.mpr hle)]
    simp

/-- C6 witness: periodYears = 7/2 yields a projection of length 3, and
absent periodYears yields the default length 5. -/
theorem projectedFCFs_length_floor_witness :
    (calculateDCF sampleInputs { periodYears := some (7 / 2) }).projectedFCFs.length = 3 ∧
    (calculateDCF sampleInputs {}).projectedFCFs.length = 5 := by
  constructor
  · rw [(projectedFCFs_length_floor sampleInputs { periodYears := some (7 / 2) }).1
      (7 / 2) rfl (by norm_num),
      show ⌊(7 : ℚ) / 2⌋ = 3 from by norm_num]
    rfl
  · exact (projectedFCFs_length_floor sampleInputs {}).2.1 rfl

/-- C10: for a positive non-integer periodYears p the projection list has
length equal to the floor of p, which is never equal to p itself, so the
length equals periodYears only when periodYears is a positive integer. -/
theorem projectedFCFs_length_noninteger (i : DCFInputs) (o : DCFCalcOptions) (p : ℚ)
    (hp : o.periodYears = some p) (hpos : 0 < p) (hint : (⌊p⌋ : ℚ) ≠ p) :
    (calculateDCF i o).projectedFCFs.length = (⌊p⌋).toNat ∧
    ((calculateDCF i o).projectedFCFs.length : ℚ) ≠ p := by
  have hlen : (calculateDCF i o).projectedFCFs.length = (⌊p⌋).toNat := by
    rw [calculateDCF_length]
    unfold numYears resolveYears
    rw [hp]
    simp [hpos]
  refine ⟨hlen, ?_⟩
  rw [hlen]
  intro h
  apply hint
  have h0 : 0 ≤ ⌊p⌋ := Int.floor_nonneg.mpr hpos.le
  have h1 : ((⌊p⌋.toNat : ℕ) : ℚ) = ((⌊p⌋ : ℤ) : ℚ) := by
    rw [← Int.cast_natCast, Int.toNat_of_nonneg h0]
  exact h1.symm.trans h

/-- C10 witness: periodYears = 5/2 gives length 2 (the floor), and 2 is not
equal to 5/2; periodYears = 1/2 gives length 0. -/
theorem projectedFCFs_length_noninteger_witness :
    ((calculateDCF sampleInputs { periodYears := some (5 / 2) }).projectedFCFs.length =
      (⌊(5 / 2 : ℚ)⌋).toNat ∧
    ((calculateDCF sampleInputs { periodYears := some (5 / 2) }).projectedFCFs.length : ℚ) ≠
      5 / 2) ∧
    (calculateDCF sampleInputs { periodYears := some (1 / 2) }).projectedFCFs.length =
      (⌊(1 / 2 : ℚ)⌋).toNat := by
  constructor
  · exact projectedFCFs_length_noninteger sampleInputs { periodYears := some (5 / 2) }
      (5 / 2) rfl (by norm_num) (by norm_num)
  · exact (projectedFCFs_length_noninteger sampleInputs { periodYears := some (1 / 2) }
      (1 / 2) rfl (by norm_num) (by norm_num)).1

theorem numYears_of_periodYears_none (o : DCFCalcOptions) (h : o.periodYears = none) :
    numYears o = 5 := by
  unfold numYears resolveYears
  rw [h]
  show (⌊(5 : ℚ)⌋).toNat = 5
  simp

theorem fcfProject_get? (g : ℚ) :
    ∀ (n : ℕ) (f : ℚ) (k : ℕ),
      (fcfProject f g n).get? k = if k < n then some (f * (1 + g) ^ (k + 1)) else none
  | 0, f, k => by simp [fcfProject]
  | Nat.succ n, f, 0 => by simp [fcfProject]
  | Nat.succ n, f, Nat.succ k => by
      have ih := fcfProject_get? g n (f * (1 + g)) k
      simp only [fcfProject, List.get?_cons_succ, ih, Nat.succ_lt_succ_iff,
        Nat.succ_eq_add_one]
      by_cases h : k < n
      · simp only [if_pos h]
        congr 1
        ring
      · simp only [if_neg h]

/-- C1: calculateDCF takes the FCF-growth path exactly when both fcfLatest
and growthEstimate5Y are present; on that path the k-th projected cash flow
(0-indexed) is fcfLatest * (1 + growthEstimate5Y/100)^(k+1), so entry 0 is
fcfLatest compounded once and each subsequent entry compounds the previous
one by (1 + growthEstimate5Y/100); otherwise the revenue-driven list is
produced. -/
theorem calculateDCF_path_selection (i : DCFInputs) (o : DCFCalcOptions) :
    (useFcfPath o = true ↔ o.fcfLatest.isSome = true ∧ o.growthEstimate5Y.isSome = true) ∧
    (∀ f g, o.fcfLatest = some f → o.growthEstimate5Y = some g →
      ∀ k : ℕ, k < (calculateDCF i o).projectedFCFs.length →
        (calculateDCF i o).projectedFCFs.get? k = some (f * (1 + g / 100) ^ (k + 1))) ∧
    (∀ f g, o.fcfLatest = some f → o.growthEstimate5Y = some g →
      ∀ k : ℕ, k + 1 < (calculateDCF i o).projectedFCFs.length →
        (calculateDCF i o).projectedFCFs.get? (k + 1) =
          ((calculateDCF i o).projectedFCFs.get? k).map (fun x => x * (1 + g / 100))) ∧
    (useFcfPath o = false → (calculateDCF i o).projectedFCFs = revFCFs i o) := by
  have hcf : ∀ f g, o.fcfLatest = some f → o.growthEstimate5Y = some g →
      ∀ k : ℕ, k < (calculateDCF i o).projectedFCFs.length →
        (calculateDCF i o).projectedFCFs.get? k = some (f * (1 + g / 100) ^ (k + 1)) := by
    intro f g hf hg k hk
    have hpath : useFcfPath o = true := by simp [useFcfPath, hf, hg]
    rw [calculateDCF_projectedFCFs, if_pos hpath] at hk ⊢
    unfold fcfPathFCFs at hk ⊢
    simp only [hf, hg, Option.getD_some] at hk ⊢
    rw [fcfProject_length] at hk
    rw [fcfProject_get?, if_pos hk]
  refine ⟨by simp [useFcfPath], hcf, ?_, ?_⟩
  · intro f g hf hg k hk
    have hk1 : k < (calculateDCF i o).projectedFCFs.length :=
      lt_trans (Nat.lt_succ_self k) hk
    rw [hcf f g hf hg (k + 1) hk, hcf f g hf hg k hk1]
    simp only [Option.map_some']
    congr 1
    ring
  · intro hpath
    rw [calculateDCF_projectedFCFs, if_neg (by simp [hpath])]

/-- C1 witness: with fcfLatest = 1000 and growthEstimate5Y = 10 the FCF path
is taken and the first two projected cash flows are 1100 and 1210; with
neither field set the revenue-driven list is produced. -/
theorem calculateDCF_path_selection_witness :
    useFcfPath { fcfLatest := some 1000, growthEstimate5Y := some 10 } = true ∧
    (calculateDCF sampleInputs
      { fcfLatest := some 1000, growthEstimate5Y := some 10 }).projectedFCFs.get? 0 =
      some 1100 ∧
    (calculateDCF sampleInputs
      { fcfLatest := some 1000, growthEstimate5Y := some 10 }).projectedFCFs.get? 1 =
      some 1210 ∧
    (calculateDCF sampleInputs { marketCap := some 5 }).projectedFCFs =
      revFCFs sampleInputs { marketCap := some 5 } := by
  have hlen : (calculateDCF sampleInputs
      { fcfLatest := some 1000, growthEstimate5Y := some 10 }).projectedFCFs.length = 5 := by
    rw [calculateDCF_length, numYears_of_periodYears_none _ rfl]
  refine ⟨rfl, ?_, ?_, ?_⟩
  · rw [(calculateDCF_path_selection sampleInputs _).2.1 1000 10 rfl rfl 0
      (by rw [hlen]; norm_num)]
    norm_num
  · rw [(calculateDCF_path_selection sampleInputs _).2.1 1000 10 rfl rfl 1
      (by rw [hlen]; norm_num)]
    norm_num
  · exact (calculateDCF_path_selection sampleInputs _).2.2.2 rfl

theorem max_max_subsumed (a : ℚ) :
    max (max a (1 / 1000)) (2 / 100) = max a (2 / 100) := by
  rw [max_assoc, max_eq_right (by norm_num : (1 / 1000 : ℚ) ≤ 2 / 100)]

/-- C2: in both paths the terminal value divides the grown last projected
cash flow by the effective denominator max(discountRate - terminalGrowth,
0.02), the revenue path inner 0.001 guard being subsumed by the 0.02 floor;
the effective denominator is always positive and collapses to 0.02 whenever
the discount rate is at or below the terminal growth rate. -/
theorem terminalValue_denominator_floor (i : DCFInputs) (o : DCFCalcOptions) :
    (fcfTerminalValue i o =
      jsIndex (fcfPathFCFs o) (((fcfPathFCFs o).length : ℚ) - 1) *
          (1 + fcfTerminalGrowth i o) /
        max (dcfDiscountRate i o - fcfTerminalGrowth i o) (2 / 100)) ∧
    (revTerminalValue i o =
      revTerminalFCF i o /
        max (dcfDiscountRate i o - i.terminalGrowth / 100) (2 / 100)) ∧
    (0 < max (dcfDiscountRate i o - fcfTerminalGrowth i o) (2 / 100)) ∧
    (0 < max (dcfDiscountRate i o - i.terminalGrowth / 100) (2 / 100)) ∧
    (dcfDiscountRate i o ≤ fcfTerminalGrowth i o →
      max (dcfDiscountRate i o - fcfTerminalGrowth i o) (2 / 100) = 2 / 100) ∧
    (dcfDiscountRate i o ≤ i.terminalGrowth / 100 →
      max (dcfDiscountRate i o - i.terminalGrowth / 100) (2 / 100) = 2 / 100) := by
  refine ⟨rfl, ?_, ?_, ?_, ?_, ?_⟩
  · unfold revTerminalValue revSafeDenominator
    rw [max_max_subsumed]
  · exact lt_of_lt_of_le (by norm_num) (le_max_right _ _)
  · exact lt_of_lt_of_le (by norm_num) (le_max_right _ _)
  · intro h
    exact max_eq_right (by linarith)
  · intro h
    exact max_eq_right (by linarith)

def floorInputs : DCFInputs :=
  { revenueCagr := 15, ebitMargin := 25, taxRate := 21, capexPercent := 3,
    nwcPercent := 2, terminalGrowth := 5, discountRate := 5 }

/-- C2 witness: with discount rate 5 and terminal growth 5 the effective
terminal-value denominator is floored at 0.02 in both paths. -/
theorem terminalValue_denominator_floor_witness :
    max (dcfDiscountRate floorInputs {} - fcfTerminalGrowth floorInputs {})
      (2 / 100) = 2 / 100 ∧
    max (dcfDiscountRate floorInputs {} - floorInputs.terminalGrowth / 100)
      (2 / 100) = 2 / 100 :=
  ⟨(terminalValue_denominator_floor floorInputs {}).2.2.2.2.1
      (by norm_num [dcfDiscountRate, fcfTerminalGrowth, floorInputs]),
   (terminalValue_denominator_floor floorInputs {}).2.2.2.2.2
      (by norm_num [dcfDiscountRate, floorInputs])⟩

theorem useFcfPath_set_terminalRate (o : DCFCalcOptions) (t : Option ℚ) :
    useFcfPath { o with terminalRate := t } = useFcfPath o := rfl

theorem revenueProject_congr (i j : DCFInputs) (h1 : i.revenueCagr = j.revenueCagr)
    (h2 : i.ebitMargin = j.ebitMargin) (h3 : i.taxRate = j.taxRate)
    (h4 : i.capexPercent = j.capexPercent) (h5 : i.nwcPercent = j.nwcPercent)
    (d : ℚ) : ∀ (n : ℕ) (r : ℚ), revenueProject i d r n = revenueProject j d r n
  | 0, _ => rfl
  | Nat.succ n, r => by
      simp only [revenueProject, h1, h2, h3, h4, h5,
        revenueProject_congr i j h1 h2 h3 h4 h5 d n]

/-- C3: the revenue-driven path computes its terminal value from
inputs.terminalGrowth, so changing options.terminalRate does not change the
result on that path, while in both paths the effective discount rate is
options.wacc when present (replacing it by inputs.discountRate = w with
wacc removed gives the same result) and inputs.discountRate otherwise. -/
theorem revenuePath_terminalRate_ignored (i : DCFInputs) (o : DCFCalcOptions) :
    (revTerminalValue i o =
      jsIndex (revFCFs i o) (resolveYears o - 1) * (1 + i.terminalGrowth / 100) /
        max (revSafeDenominator i o) (2 / 100)) ∧
    (∀ t, useFcfPath o = false →
      calculateDCF i { o with terminalRate := t } = calculateDCF i o) ∧
    (∀ w, o.wacc = some w →
      calculateDCF i o =
        calculateDCF { i with discountRate := w } { o with wacc := none }) ∧
    (o.wacc = none → dcfDiscountRate i o = i.discountRate / 100) := by
  refine ⟨rfl, ?_, ?_, ?_⟩
  · intro t hpath
    have h1 : useFcfPath { o with terminalRate := t } = false := by
      rw [useFcfPath_set_terminalRate, hpath]
    unfold calculateDCF
    rw [h1, hpath]
    rfl
  · intro w hw
    have hdr : dcfDiscountRate i o =
        dcfDiscountRate { i with discountRate := w } { o with wacc := none } := by
      unfold dcfDiscountRate
      rw [hw]
      rfl
    have htv : fcfTerminalValue i o =
        fcfTerminalValue { i with discountRate := w } { o with wacc := none } := by
      unfold fcfTerminalValue fcfTerminalGrowth dcfDiscountRate fcfPathFCFs
      rw [hw]
      rfl
    have hrev : revFCFs i o = revFCFs { i with discountRate := w } { o with wacc := none } := by
      unfold revFCFs
      exact revenueProject_congr i { i with discountRate := w } rfl rfl rfl rfl rfl _ _ _
    have hrtv : revTerminalValue i o =
        revTerminalValue { i with discountRate := w } { o with wacc := none } := by
      unfold revTerminalValue revTerminalFCF revSafeDenominator dcfDiscountRate
      rw [hw, hrev]
      rfl
    have hpathEq : useFcfPath { o with wacc := none } = useFcfPath o := rfl
    unfold calculateDCF
    rw [hpathEq]
    by_cases hpath : useFcfPath o
    · rw [if_pos hpath, if_pos hpath, htv, hdr]
      rfl
    · rw [if_neg hpath, if_neg hpath, hrtv, hdr, hrev]
      rfl
  · intro hw
    unfold dcfDiscountRate
    rw [hw]
    rfl

/-- C3 witness: with empty options (revenue path) setting terminalRate to 99
does not change the result, and wacc = 8 is equivalent to discount rate 8
with wacc removed. -/
theorem revenuePath_terminalRate_ignored_witness :
    calculateDCF sampleInputs { terminalRate := some 99 } = calculateDCF sampleInputs {} ∧
    calculateDCF sampleInputs { wacc := some 8 } =
      calculateDCF { sampleInputs with discountRate := 8 }
        { ({ wacc := some 8 } : DCFCalcOptions) with wacc := none } :=
  ⟨(revenuePath_terminalRate_ignored sampleInputs {}).2.1 (some 99) rfl,
   (revenuePath_terminalRate_ignored sampleInputs { wacc := some 8 }).2.2.1 8 rfl⟩

/-- C4: generateSensitivityData returns the five rounded discount rates
centered on wacc when present (else the base discount rate), the fixed
terminal growth axis [1, 1.5, 2, 2.5, 3], and a 5-by-5 matrix whose cell
(i, j) is the rounded intrinsic value of calculateDCF on the base inputs
with discountRate and terminalGrowth replaced by the i-th and j-th axis
values, called with the wacc and terminalRate overrides removed. -/
theorem generateSensitivityData_spec (b : DCFInputs) (o : DCFCalcOptions) :
    (generateSensitivityData b o).discountRates =
      [((jroundQ (o.wacc.getD b.discountRate - 2) : ℤ) : ℚ),
       ((jroundQ (o.wacc.getD b.discountRate - 1) : ℤ) : ℚ),
       ((jroundQ (o.wacc.getD b.discountRate) : ℤ) : ℚ),
       ((jroundQ (o.wacc.getD b.discountRate + 1) : ℤ) : ℚ),
       ((jroundQ (o.wacc.getD b.discountRate + 2) : ℤ) : ℚ)] ∧
    (generateSensitivityData b o).terminalGrowthRates = [1, 3 / 2, 2, 5 / 2, 3] ∧
    (generateSensitivityData b o).values.length = 5 ∧
    (generateSensitivityData b o).values.map List.length = [5, 5, 5, 5, 5] ∧
    (∀ i j : ℕ, i < 5 → j < 5 →
      ((generateSensitivityData b o).values.getD i []).getD j 0 =
        jround ((calculateDCF
          { b with
              discountRate := (generateSensitivityData b o).discountRates.getD i 0,
              terminalGrowth := (generateSensitivityData b o).terminalGrowthRates.getD j 0 }
          { o with wacc := none, terminalRate := none }).intrinsicValue)) := by
  refine ⟨rfl, rfl, rfl, rfl, ?_⟩
  intro i j hi hj
  interval_cases i <;> interval_cases j <;> rfl

/-- C4 witness: at row 1 and column 2 of the grid for the sample inputs
with wacc = 9 and terminalRate = 3, the cell is the rounded intrinsic value
of calculateDCF on the amended inputs with the overrides stripped. -/
theorem generateSensitivityData_spec_witness :
    ((generateSensitivityData sampleInputs { wacc := some 9, terminalRate := some 3 }).values.getD 1 []).getD 2 0 =
      jround ((calculateDCF
        { sampleInputs with
            discountRate := (generateSensitivityData sampleInputs { wacc := some 9, terminalRate := some 3 }).discountRates.getD 1 0,
            terminalGrowth := (generateSensitivityData sampleInputs { wacc := some 9, terminalRate := some 3 }).terminalGrowthRates.getD 2 0 }
        { ({ wacc := some 9, terminalRate := some 3 } : DCFCalcOptions) with wacc := none, terminalRate := none }).intrinsicValue) :=
  (generateSensitivityData_spec sampleInputs { wacc := some 9, terminalRate := some 3 }).2.2.2.2
    1 2 (by norm_num) (by norm_num)

/- Helper lemmas for the monotonicity claim. -/

def effTerminalGrowth (i : DCFInputs) (o : DCFCalcOptions) : ℚ :=
  if useFcfPath o then fcfTerminalGrowth i o else i.terminalGrowth / 100

theorem useFcfPath_set_wacc (o : DCFCalcOptions) (x : Option ℚ) :
    useFcfPath { o with wacc := x } = useFcfPath o := rfl

theorem revFCFs_set_terminalGrowth (i : DCFInputs) (g : ℚ) (o : DCFCalcOptions) :
    revFCFs { i with terminalGrowth := g } o = revFCFs i o := by
  unfold revFCFs
  exact revenueProject_congr { i with terminalGrowth := g } i rfl rfl rfl rfl rfl _ _ _

theorem projectedFCFs_set_wacc (i : DCFInputs) (o : DCFCalcOptions) (x : Option ℚ) :
    (calculateDCF i { o with wacc := x }).projectedFCFs =
      (calculateDCF i o).projectedFCFs := by
  rw [calculateDCF_projectedFCFs, calculateDCF_projectedFCFs, useFcfPath_set_wacc]
  by_cases h : useFcfPath o = true
  · rw [if_pos h, if_pos h]
    rfl
  · rw [if_neg h, if_neg h]
    rfl

theorem projectedFCFs_set_terminalGrowth (i : DCFInputs) (g : ℚ) (o : DCFCalcOptions) :
    (calculateDCF { i with terminalGrowth := g } o).projectedFCFs =
      (calculateDCF i o).projectedFCFs := by
  rw [calculateDCF_projectedFCFs, calculateDCF_projectedFCFs]
  by_cases h : useFcfPath o = true
  · rw [if_pos h, if_pos h]
  · rw [if_neg h, if_neg h]
    exact revFCFs_set_terminalGrowth i g o

theorem one_le_resolveYears (i : DCFInputs) (o : DCFCalcOptions)
    (h : (calculateDCF i o).projectedFCFs ≠ []) : 1 ≤ resolveYears o := by
  have hlen : 0 < (calculateDCF i o).projectedFCFs.length := List.length_pos.mpr h
  rw [calculateDCF_length] at hlen
  unfold numYears at hlen
  have h1 : 1 ≤ ⌊resolveYears o⌋ := by omega
  exact_mod_cast Int.le_floor.mp h1

theorem jsIndex_pos (l : List ℚ) (q : ℚ) (h0 : 0 ≤ q) (hden : q.den = 1)
    (hlt : q.num.toNat < l.length) (hpos : ∀ f ∈ l, 0 < f) : 0 < jsIndex l q := by
  unfold jsIndex
  rw [if_pos ⟨h0, hden⟩, List.getD_eq_getElem?_getD, List.getElem?_eq_getElem hlt]
  exact hpos _ (List.getElem_mem hlt)

theorem fcf_last_pos (l : List ℚ) (hne : l ≠ []) (hpos : ∀ f ∈ l, 0 < f) :
    0 < jsIndex l ((l.length : ℚ) - 1) := by
  have hlen : 0 < l.length := List.length_pos.mpr hne
  have hcast : ((l.length : ℚ) - 1) = (((l.length : ℤ) - 1 : ℤ) : ℚ) := by
    push_cast
    ring
  apply jsIndex_pos
  · rw [hcast]
    have h1 : (0 : ℤ) ≤ (l.length : ℤ) - 1 := by omega
    exact_mod_cast h1
  · rw [hcast]
    exact Rat.den_intCast _
  · rw [hcast, Rat.num_intCast]
    omega
  · exact hpos

theorem rev_terminal_pos (i : DCFInputs) (o : DCFCalcOptions)
    (hden : (resolveYears o).den = 1) (hne : revFCFs i o ≠ [])
    (hpos : ∀ f ∈ revFCFs i o, 0 < f) :
    0 < jsIndex (revFCFs i o) (resolveYears o - 1) := by
  have hlen : (revFCFs i o).length = numYears o := by
    unfold revFCFs
    rw [revenueProject_length]
  have hyq : (((resolveYears o).num : ℤ) : ℚ) = resolveYears o :=
    (Rat.den_eq_one_iff _).mp hden
  have hfloor : ⌊resolveYears o⌋ = (resolveYears o).num := by
    conv_lhs => rw [← hyq]
    exact Int.floor_intCast _
  have hlen2 : (revFCFs i o).length = (resolveYears o).num.toNat := by
    rw [hlen]
    unfold numYears
    rw [hfloor]
  have hposlen : 0 < (revFCFs i o).length := List.length_pos.mpr hne
  have hnum1 : 1 ≤ (resolveYears o).num := by omega
  have hcast : resolveYears o - 1 = ((((resolveYears o).num - 1 : ℤ)) : ℚ) := by
    push_cast
    rw [hyq]
  apply jsIndex_pos
  · rw [hcast]
    have h1 : (0 : ℤ) ≤ (resolveYears o).num - 1 := by omega
    exact_mod_cast h1
  · rw [hcast]
    exact Rat.den_intCast _
  · rw [hcast, Rat.num_intCast, hlen2]
    omega
  · exact hpos

theorem div_le_div_same {α : Type} [LinearOrderedField α] {a b c : α}
    (h : a ≤ b) (hc : 0 < c) : a / c ≤ b / c := by
  rw [div_le_div_iff hc hc]
  exact mul_le_mul_of_nonneg_right h hc.le

theorem div_lt_div_same {α : Type} [LinearOrderedField α] {a b c : α}
    (h : a < b) (hc : 0 < c) : a / c < b / c := by
  rw [div_lt_div_iff hc hc]
  exact mul_lt_mul_of_pos_right h hc

theorem tv_denom_anti (N d1 d2 γ : ℚ) (hN : 0 ≤ N) (h : d1 ≤ d2) :
    N / max (d2 - γ) (2 / 100) ≤ N / max (d1 - γ) (2 / 100) :=
  div_le_div hN le_rfl (lt_of_lt_of_le (by norm_num) (le_max_right _ _))
    (max_le_max (by linarith) le_rfl)

theorem tv_growth_strictMono (L d γ1 γ2 : ℚ) (hL : 0 < L) (hd : 0 < 1 + d)
    (hγ : γ1 < γ2) :
    L * (1 + γ1) / max (d - γ1) (2 / 100) < L * (1 + γ2) / max (d - γ2) (2 / 100) := by
  rcases le_or_lt (2 / 100) (d - γ2) with h2 | h2
  · have h1 : (2 / 100 : ℚ) ≤ d - γ1 := by linarith
    rw [max_eq_left h2, max_eq_left h1, div_lt_div_iff (by linarith) (by linarith)]
    nlinarith [mul_pos hL (mul_pos (sub_pos.mpr hγ) hd)]
  · rw [max_eq_right h2.le]
    rcases le_or_lt (d - γ1) (2 / 100) with h1 | h1
    · rw [max_eq_right h1]
      apply div_lt_div_same _ (by norm_num)
      nlinarith [mul_pos hL (sub_pos.mpr hγ)]
    · rw [max_eq_left h1.le]
      have key : L * (1 + γ1) / (d - γ1) < L * (1 + (d - 2 / 100)) / (2 / 100) := by
        rw [div_lt_div_iff (by linarith) (by norm_num)]
        nlinarith [mul_pos hL (mul_pos
          (sub_pos.mpr (show γ1 < d - 2 / 100 by linarith)) hd)]
      refine key.trans_le ?_
      apply div_le_div_same _ (by norm_num)
      nlinarith [mul_pos hL (sub_pos.mpr (show d - 2 / 100 < γ2 by linarith))]

theorem pvAux_exp_pos (mid : Bool) (k : ℕ) :
    (0 : ℝ) < (if mid = true then (k : ℝ) + 1 / 2 else (k : ℝ) + 1) := by
  split <;> positivity

theorem pvAux_le (b1 b2 : ℝ) (hb0 : 0 < b1) (hb : b1 < b2) (mid : Bool) :
    ∀ (l : List ℚ) (k : ℕ), (∀ f ∈ l, 0 < f) → pvAux b2 mid l k ≤ pvAux b1 mid l k
  | [], _, _ => le_of_eq rfl
  | f :: rest, k, hpos => by
      have hf : (0 : ℝ) < ((f : ℚ) : ℝ) := by
        exact_mod_cast hpos f (List.mem_cons_self f rest)
      have hpow : b1 ^ (if mid = true then (k : ℝ) + 1 / 2 else (k : ℝ) + 1) <
          b2 ^ (if mid = true then (k : ℝ) + 1 / 2 else (k : ℝ) + 1) :=
        Real.rpow_lt_rpow hb0.le hb (pvAux_exp_pos mid k)
      have hpow1 : 0 < b1 ^ (if mid = true then (k : ℝ) + 1 / 2 else (k : ℝ) + 1) :=
        Real.rpow_pos_of_pos hb0 _
      have htail := pvAux_le b1 b2 hb0 hb mid rest (k + 1)
        (fun x hx => hpos x (List.mem_cons_of_mem f hx))
      unfold pvAux
      exact add_le_add (le_of_lt (div_lt_div_of_pos_left hf hpow1 hpow)) htail

theorem pvAux_lt (b1 b2 : ℝ) (hb0 : 0 < b1) (hb : b1 < b2) (mid : Bool)
    (l : List ℚ) (k : ℕ) (hne : l ≠ []) (hpos : ∀ f ∈ l, 0 < f) :
    pvAux b2 mid l k < pvAux b1 mid l k := by
  cases l with
  | nil => exact absurd rfl hne
  | cons f rest =>
      have hf : (0 : ℝ) < ((f : ℚ) : ℝ) := by
        exact_mod_cast hpos f (List.mem_cons_self f rest)
      have hpow : b1 ^ (if mid = true then (k : ℝ) + 1 / 2 else (k : ℝ) + 1) <
          b2 ^ (if mid = true then (k : ℝ) + 1 / 2 else (k : ℝ) + 1) :=
        Real.rpow_lt_rpow hb0.le hb (pvAux_exp_pos mid k)
      have hpow1 : 0 < b1 ^ (if mid = true then (k : ℝ) + 1 / 2 else (k : ℝ) + 1) :=
        Real.rpow_pos_of_pos hb0 _
      have htail := pvAux_le b1 b2 hb0 hb mid rest (k + 1)
        (fun x hx => hpos x (List.mem_cons_of_mem f hx))
      unfold pvAux
      exact add_lt_add_of_lt_of_le (div_lt_div_of_pos_left hf hpow1 hpow) htail

theorem tvTerm_le (tv1 tv2 : ℚ) (b1 b2 E : ℝ) (htv2 : 0 ≤ tv2) (htv : tv2 ≤ tv1)
    (hb0 : 0 < b1) (hb : b1 ≤ b2) (hE : 0 ≤ E) :
    ((tv2 : ℚ) : ℝ) / b2 ^ E ≤ ((tv1 : ℚ) : ℝ) / b1 ^ E := by
  have h1 : 0 < b1 ^ E := Real.rpow_pos_of_pos hb0 E
  have h2 : b1 ^ E ≤ b2 ^ E := Real.rpow_le_rpow hb0.le hb hE
  exact div_le_div (by exact_mod_cast le_trans htv2 htv) (by exact_mod_cast htv) h1 h2

theorem assembleResults_intrinsic (l : List ℚ)
    (tv dr years nd sh mp : ℚ) (mid : Bool) (hsh : 0 < sh) :
    (assembleResults l tv dr years nd sh mp mid).intrinsicValue =
      (pvAux (1 + (dr : ℝ)) mid l 0 +
        ((tv : ℚ) : ℝ) /
          (1 + (dr : ℝ)) ^ (if mid then ((years : ℚ) : ℝ) - 1 / 2 else ((years : ℚ) : ℝ)) -
        ((nd : ℚ) : ℝ)) / ((sh : ℚ) : ℝ) := by
  simp [assembleResults, hsh]

/-- C7: with all other inputs and options fixed, for a nonempty projection
of strictly positive cash flows, a positive resolved share count, a
nonnegative terminal cash-flow factor, and a whole-year projection period,
the intrinsic value is strictly decreasing in the effective discount rate
(set through the wacc override, above the -100 percent singularity) and
strictly increasing in the effective terminal growth rate while it stays
below the effective discount rate. -/
theorem intrinsicValue_monotone (i : DCFInputs) (o : DCFCalcOptions) (r1 r2 g1 g2 : ℚ) :
    (-100 < r1 → r1 < r2 →
      (calculateDCF i o).projectedFCFs ≠ [] →
      (∀ f ∈ (calculateDCF i o).projectedFCFs, 0 < f) →
      0 < resolveShares o →
      0 ≤ 1 + effTerminalGrowth i o →
      (resolveYears o).den = 1 →
      (calculateDCF i { o with wacc := some r2 }).intrinsicValue <
        (calculateDCF i { o with wacc := some r1 }).intrinsicValue) ∧
    (o.terminalRate = none → g1 < g2 → g2 < o.wacc.getD i.discountRate →
      -100 < o.wacc.getD i.discountRate →
      (calculateDCF i o).projectedFCFs ≠ [] →
      (∀ f ∈ (calculateDCF i o).projectedFCFs, 0 < f) →
      0 < resolveShares o →
      (resolveYears o).den = 1 →
      (calculateDCF { i with terminalGrowth := g1 } o).intrinsicValue <
        (calculateDCF { i with terminalGrowth := g2 } o).intrinsicValue) := by
  constructor
  · intro hr1 hr12 hne hpos hsh hg hden
    have hy : (1 : ℚ) ≤ resolveYears o := one_le_resolveYears i o hne
    have hr1R : (-100 : ℝ) < (r1 : ℝ) := by exact_mod_cast hr1
    have hr12R : ((r1 : ℝ)) < (r2 : ℝ) := by exact_mod_cast hr12
    have hb0 : (0 : ℝ) < 1 + ((r1 / 100 : ℚ) : ℝ) := by push_cast; linarith
    have hb12 : 1 + ((r1 / 100 : ℚ) : ℝ) < 1 + ((r2 / 100 : ℚ) : ℝ) := by
      push_cast
      linarith
    have hyR : (1 : ℝ) ≤ ((resolveYears o : ℚ) : ℝ) := by exact_mod_cast hy
    by_cases hpath : useFcfPath o = true
    · have hl : (calculateDCF i o).projectedFCFs = fcfPathFCFs o := by
        rw [calculateDCF_projectedFCFs, if_pos hpath]
      rw [hl] at hne hpos
      have hγ : 0 ≤ 1 + fcfTerminalGrowth i o := by
        unfold effTerminalGrowth at hg
        rw [if_pos hpath] at hg
        exact hg
      have hL : 0 < jsIndex (fcfPathFCFs o) (((fcfPathFCFs o).length : ℚ) - 1) :=
        fcf_last_pos _ hne hpos
      have hN : 0 ≤ jsIndex (fcfPathFCFs o) (((fcfPathFCFs o).length : ℚ) - 1) *
          (1 + fcfTerminalGrowth i o) := mul_nonneg hL.le hγ
      have hA : ∀ r : ℚ, calculateDCF i { o with wacc := some r } =
          assembleResults (fcfPathFCFs o)
            (jsIndex (fcfPathFCFs o) (((fcfPathFCFs o).length : ℚ) - 1) *
                (1 + fcfTerminalGrowth i o) /
              max (r / 100 - fcfTerminalGrowth i o) (2 / 100))
            (r / 100) (resolveYears o) (o.netDebt.getD 0) (resolveShares o)
            (resolveMarketPrice o) (o.useMidYear.getD false) := by
        intro r
        unfold calculateDCF
        rw [if_pos (show useFcfPath { o with wacc := some r } = true from hpath)]
        rfl
      rw [hA r1, hA r2, assembleResults_intrinsic _ _ _ _ _ _ _ _ hsh,
        assembleResults_intrinsic _ _ _ _ _ _ _ _ hsh]
      refine div_lt_div_same ?_ (by exact_mod_cast hsh)
      apply sub_lt_sub_right
      apply add_lt_add_of_lt_of_le
      · exact pvAux_lt _ _ hb0 hb12 _ _ _ hne hpos
      · refine tvTerm_le _ _ _ _ _ ?_ ?_ hb0 hb12.le ?_
        · exact div_nonneg hN (le_trans (by norm_num) (le_max_right _ _))
        · exact tv_denom_anti _ (r1 / 100) (r2 / 100) _ hN (by linarith)
        · split <;> linarith
    · have hl : (calculateDCF i o).projectedFCFs = revFCFs i o := by
        rw [calculateDCF_projectedFCFs, if_neg hpath]
      rw [hl] at hne hpos
      have hγ : 0 ≤ 1 + i.terminalGrowth / 100 := by
        unfold effTerminalGrowth at hg
        rw [if_neg hpath] at hg
        exact hg
      have hL : 0 < jsIndex (revFCFs i o) (resolveYears o - 1) :=
        rev_terminal_pos i o hden hne hpos
      have hN : 0 ≤ jsIndex (revFCFs i o) (resolveYears o - 1) *
          (1 + i.terminalGrowth / 100) := mul_nonneg hL.le hγ
      have hA : ∀ r : ℚ, calculateDCF i { o with wacc := some r } =
          assembleResults (revFCFs i o)
            (jsIndex (revFCFs i o) (resolveYears o - 1) * (1 + i.terminalGrowth / 100) /
              max (max (r / 100 - i.terminalGrowth / 100) (1 / 1000)) (2 / 100))
            (r / 100) (resolveYears o) (o.netDebt.getD 0) (resolveShares o)
            (resolveMarketPrice o) (o.useMidYear.getD false) := by
        intro r
        unfold calculateDCF
        rw [if_neg (show ¬useFcfPath { o with wacc := some r } = true from hpath)]
        rfl
      rw [hA r1, hA r2, max_max_subsumed, max_max_subsumed,
        assembleResults_intrinsic _ _ _ _ _ _ _ _ hsh,
        assembleResults_intrinsic _ _ _ _ _ _ _ _ hsh]
      refine div_lt_div_same ?_ (by exact_mod_cast hsh)
      apply sub_lt_sub_right
      apply add_lt_add_of_lt_of_le
      · exact pvAux_lt _ _ hb0 hb12 _ _ _ hne hpos
      · refine tvTerm_le _ _ _ _ _ ?_ ?_ hb0 hb12.le ?_
        · exact div_nonneg hN (le_trans (by norm_num) (le_max_right _ _))
        · exact tv_denom_anti _ (r1 / 100) (r2 / 100) _ hN (by linarith)
        · split <;> linarith
  · intro htr hg12 hgr hdr hne hpos hsh hden
    have hy : (1 : ℚ) ≤ resolveYears o := one_le_resolveYears i o hne
    have hyR : (1 : ℝ) ≤ ((resolveYears o : ℚ) : ℝ) := by exact_mod_cast hy
    have hdQ : 0 < 1 + dcfDiscountRate i o := by
      have e : dcfDiscountRate i o = o.wacc.getD i.discountRate / 100 := rfl
      rw [e]
      linarith
    have hgrQ : g2 / 100 < dcfDiscountRate i o := by
      have e : dcfDiscountRate i o = o.wacc.getD i.discountRate / 100 := rfl
      rw [e]
      linarith
    have hb0 : (0 : ℝ) < 1 + ((dcfDiscountRate i o : ℚ) : ℝ) := by exact_mod_cast hdQ
    by_cases hpath : useFcfPath o = true
    · have hl : (calculateDCF i o).projectedFCFs = fcfPathFCFs o := by
        rw [calculateDCF_projectedFCFs, if_pos hpath]
      rw [hl] at hne hpos
      have hL : 0 < jsIndex (fcfPathFCFs o) (((fcfPathFCFs o).length : ℚ) - 1) :=
        fcf_last_pos _ hne hpos
      have hA : ∀ g : ℚ, calculateDCF { i with terminalGrowth := g } o =
          assembleResults (fcfPathFCFs o)
            (jsIndex (fcfPathFCFs o) (((fcfPathFCFs o).length : ℚ) - 1) * (1 + g / 100) /
              max (dcfDiscountRate i o - g / 100) (2 / 100))
            (dcfDiscountRate i o) (resolveYears o) (o.netDebt.getD 0) (resolveShares o)
            (resolveMarketPrice o) (o.useMidYear.getD false) := by
        intro g
        unfold calculateDCF
        rw [if_pos hpath]
        have htv : fcfTerminalValue { i with terminalGrowth := g } o =
            jsIndex (fcfPathFCFs o) (((fcfPathFCFs o).length : ℚ) - 1) * (1 + g / 100) /
              max (dcfDiscountRate i o - g / 100) (2 / 100) := by
          unfold fcfTerminalValue fcfTerminalGrowth
          rw [htr]
          rfl
        rw [htv]
        rfl
      rw [hA g1, hA g2, assembleResults_intrinsic _ _ _ _ _ _ _ _ hsh,
        assembleResults_intrinsic _ _ _ _ _ _ _ _ hsh]
      refine div_lt_div_same ?_ (by exact_mod_cast hsh)
      apply sub_lt_sub_right
      apply add_lt_add_left
      refine div_lt_div_same ?_ (Real.rpow_pos_of_pos hb0 _)
      exact_mod_cast tv_growth_strictMono _ (dcfDiscountRate i o) (g1 / 100) (g2 / 100)
        hL hdQ (by linarith)
    · have hl : (calculateDCF i o).projectedFCFs = revFCFs i o := by
        rw [calculateDCF_projectedFCFs, if_neg hpath]
      rw [hl] at hne hpos
      have hL : 0 < jsIndex (revFCFs i o) (resolveYears o - 1) :=
        rev_terminal_pos i o hden hne hpos
      have hA : ∀ g : ℚ, calculateDCF { i with terminalGrowth := g } o =
          assembleResults (revFCFs i o)
            (jsIndex (revFCFs i o) (resolveYears o - 1) * (1 + g / 100) /
              max (max (dcfDiscountRate i o - g / 100) (1 / 1000)) (2 / 100))
            (dcfDiscountRate i o) (resolveYears o) (o.netDebt.getD 0) (resolveShares o)
            (resolveMarketPrice o) (o.useMidYear.getD false) := by
        intro g
        unfold calculateDCF
        rw [if_neg hpath]
        have hrevEq := revFCFs_set_terminalGrowth i g o
        have htv : revTerminalValue { i with terminalGrowth := g } o =
            jsIndex (revFCFs i o) (resolveYears o - 1) * (1 + g / 100) /
              max (max (dcfDiscountRate i o - g / 100) (1 / 1000)) (2 / 100) := by
          unfold revTerminalValue revTerminalFCF revSafeDenominator
          rw [hrevEq]
          rfl
        rw [htv, hrevEq]
        rfl
      rw [hA g1, hA g2, max_max_subsumed, max_max_subsumed,
        assembleResults_intrinsic _ _ _ _ _ _ _ _ hsh,
        assembleResults_intrinsic _ _ _ _ _ _ _ _ hsh]
      refine div_lt_div_same ?_ (by exact_mod_cast hsh)
      apply sub_lt_sub_right
      apply add_lt_add_left
      refine div_lt_div_same ?_ (Real.rpow_pos_of_pos hb0 _)
      exact_mod_cast tv_growth_strictMono _ (dcfDiscountRate i o) (g1 / 100) (g2 / 100)
        hL hdQ (by linarith)

theorem sample_projected_ne : (calculateDCF sampleInputs {}).projectedFCFs ≠ [] := by
  rw [calculateDCF_projectedFCFs, useFcfPath_empty,
    if_neg (show ¬(false = true) by simp), revFCFs_sample_empty]
  simp

theorem sample_projected_pos : ∀ f ∈ (calculateDCF sampleInputs {}).projectedFCFs, 0 < f := by
  rw [calculateDCF_projectedFCFs, useFcfPath_empty,
    if_neg (show ¬(false = true) by simp), revFCFs_sample_empty]
  intro f hf
  simp only [List.mem_cons, List.not_mem_nil, or_false] at hf
  rcases hf with rfl | rfl | rfl | rfl | rfl <;> norm_num

theorem sample_shares_pos : 0 < resolveShares ({} : DCFCalcOptions) := by
  show (0 : ℚ) < 100000000
  norm_num

theorem sample_years_den : (resolveYears ({} : DCFCalcOptions)).den = 1 := by
  show ((5 : ℚ)).den = 1
  simp

/-- C7 witness: with the sample inputs, raising the wacc override from 9 to
10 strictly lowers the intrinsic value, and raising the terminal growth
from 2 to 3 (below the discount rate 10) strictly raises it. -/
theorem intrinsicValue_monotone_witness :
    (calculateDCF sampleInputs { wacc := some 10 }).intrinsicValue <
      (calculateDCF sampleInputs { wacc := some 9 }).intrinsicValue ∧
    (calculateDCF { sampleInputs with terminalGrowth := 2 } {}).intrinsicValue <
      (calculateDCF { sampleInputs with terminalGrowth := 3 } {}).intrinsicValue := by
  constructor
  · exact (intrinsicValue_monotone sampleInputs {} 9 10 0 0).1 (by norm_num) (by norm_num)
      sample_projected_ne sample_projected_pos sample_shares_pos
      (by show (0 : ℚ) ≤ 1 + (3 : ℚ) / 100; norm_num) sample_years_den
  · exact (intrinsicValue_monotone sampleInputs {} 0 0 2 3).2 rfl (by norm_num)
      (by show (3 : ℚ) < 10; norm_num) (by show (-100 : ℚ) < 10; norm_num)
      sample_projected_ne sample_projected_pos sample_shares_pos sample_years_den

end DcfUi
